import Mathlib

/-!
Verification of the texture-resource and sampling core of the
SoftwareRenderer repository (`Texture`, its mip-chain generation and the
`sample` entry point, from the Texture section of the sources, together
with the `Color` value type and the `clamp` helper from MathUtils).

Modelling conventions:
* `std::uint32_t` arithmetic is `Nat` with an explicit `% 2^32` where the
  source can wrap (buffer-size products, `width - 1`, index casts).
* `float` values are modelled as exact rationals (`ℚ`).  The two
  transcendental operations (`std::pow(x, GAMMA)` and
  `std::pow(x, 1/GAMMA)`) and the bit-level reinterpretation of four bytes
  as a `float` have no exact rational counterpart; they are carried as
  uninterpreted fields of a `RealOps` environment that is threaded through
  the definitions, so every theorem below holds for every interpretation
  of these operations.
* C float-to-integer casts truncate toward zero; `std::round` rounds half
  away from zero; `std::fmod` is the truncated remainder.  All three are
  defined exactly on `ℚ` below.
* Exceptions leave the partially mutated object behind, so each mutating
  operation returns the final state of the object together with an
  optional error (`Texture × Option TexError`).
* The repository contains two `Color` types; the one the texture code is
  written against (float channels, byte constructor dividing by 255) is
  the one embedded here.
* The `Sampler` header itself is not among the provided sources.
  Modelled from the spec: `Sampler` is a plain configuration struct with
  two per-axis address modes in {clamp, repeat, mirror} and one filter in
  {point, bilinear}; the dispatch on these enumerations is visible in the
  `Texture::sample` source.
-/

namespace SR

/-- Truncation toward zero of a rational, the value of a C float-to-integer
conversion (`static_cast<intN>(x)`). -/
def ratTrunc (q : ℚ) : ℤ := if 0 ≤ q then ⌊q⌋ else ⌈q⌉

/-- C `std::fmod`: `x - trunc(x / y) * y`. -/
def ratFmod (x y : ℚ) : ℚ := x - (ratTrunc (x / y) : ℚ) * y

/-- C `std::round`: round half away from zero. -/
def roundQ (q : ℚ) : ℤ := if 0 ≤ q then ratTrunc (q + 1/2) else -ratTrunc (-q + 1/2)

/-- `sr::clamp` from MathUtils: `(x < lo) ? lo : ((x > hi) ? hi : x)`. -/
def clampQ (x lo hi : ℚ) : ℚ := if x < lo then lo else if hi < x then hi else x

/-- the same `sr::clamp` template instantiated at `std::uint32_t`. -/
def clampN (x lo hi : Nat) : Nat := if x < lo then lo else if hi < x then hi else x

/-- conversion of a nonnegative-or-small value to `uint32`: truncation toward
zero then reduction; a negative or too-large argument is undefined behaviour
in the source, resolved here to `Int.toNat` and `% 2^32`. -/
def toU32 (q : ℚ) : Nat := (ratTrunc q).toNat % 2^32

/-- `uint32` cast of an integral float (result of `std::round`). -/
def intToU32 (i : ℤ) : Nat := i.toNat % 2^32

/-- `uint8` cast of an integral float (result of `std::round`). -/
def intToU8 (i : ℤ) : Nat := i.toNat % 256

/-- Environment of real-number operations that have no exact rational
model: `std::pow(·, GAMMA)`, `std::pow(·, 1/GAMMA)` with `GAMMA = 2.2`,
and the reinterpretation of four little-endian bytes as an IEEE float. -/
structure RealOps where
  powGamma : ℚ → ℚ
  powInvGamma : ℚ → ℚ
  float32FromBytes : Nat → Nat → Nat → Nat → ℚ

/-- a trivial interpretation of the uninterpreted operations, used to
instantiate universally quantified theorems at concrete inputs. -/
def opsZero : RealOps := ⟨fun _ => 0, fun _ => 0, fun _ _ _ _ => 0⟩

/-- `Texture::PixelFormat`. -/
inductive PixelFormat | r8 | a8 | rgba8 | float32
  deriving DecidableEq, Repr

/-- `Texture::getPixelSize`: the `default:` branch returning 0 is
unreachable, the four enumerators map to 1, 1, 4 and 4 bytes. -/
def getPixelSize : PixelFormat → Nat
  | .r8 => 1
  | .a8 => 1
  | .rgba8 => 4
  | .float32 => 4

/-- the three `std::runtime_error` messages thrown by the texture code. -/
inductive TexError | invalidFormat | invalidBufferSize | baseImageNotProvided
  deriving DecidableEq, Repr

/-- `sr::Color` (the float-channel variant the texture code is written
against): four channels, default constructed to 0, byte constructor
divides by 255. -/
structure Color where
  r : ℚ := 0
  g : ℚ := 0
  b : ℚ := 0
  a : ℚ := 0
  deriving DecidableEq, Repr

/-- the `Color(uint8_t, uint8_t, uint8_t, uint8_t)` constructor. -/
def Color.ofBytes (red green blue alpha : Nat) : Color :=
  ⟨(red : ℚ) / 255, (green : ℚ) / 255, (blue : ℚ) / 255, (alpha : ℚ) / 255⟩

/-- Modelled from the spec: `Sampler.hpp` is not among the provided
sources; the spec describes two per-axis address modes and the source's
`sample` dispatches on exactly these three enumerators. -/
inductive AddressMode | clamp | wrap | mirror
  deriving DecidableEq, Repr

/-- Modelled from the spec: the filter enumeration; the source tests
`filter == Sampler::Filter::point` and treats everything else as the
bilinear path.  (`wrap` above is the source's `repeat` enumerator, renamed
because `repeat` is reserved in Lean.) -/
inductive Filter | point | bilinear
  deriving DecidableEq, Repr

/-- Modelled from the spec: the plain sampler configuration struct. -/
structure Sampler where
  addressModeX : AddressMode
  addressModeY : AddressMode
  filter : Filter
  deriving DecidableEq, Repr

/-- the mip dimension chain: the `while (newWidth > 1 || newHeight > 1)`
halving loop shared by the constructor, `resize` and `generateMipMaps`
(`>>= 1` followed by flooring at 1). -/
def mipDims (w h : Nat) : List (Nat × Nat) :=
  if 1 < w ∨ 1 < h then
    (max 1 (w / 2), max 1 (h / 2)) :: mipDims (max 1 (w / 2)) (max 1 (h / 2))
  else []
termination_by max w h
decreasing_by
  rcases ‹1 < w ∨ 1 < h› with hw | hh <;> omega

/-- a zero-filled byte buffer, `std::vector<std::uint8_t>(n)`. -/
def zeros (n : Nat) : List Nat := List.replicate n 0

/-- the texture state: pixel format, level-0 dimensions, the mip flag and
the list of level buffers.  `minLOD`, `maxLOD` and `lodBias` exist in the
source but are never consulted; they are carried with their initial
values. -/
structure Texture where
  pixelFormat : PixelFormat
  width : Nat
  height : Nat
  mipMaps : Bool
  levels : List (List Nat)
  minLOD : Nat := 0
  maxLOD : Nat := 2^32 - 1
  lodBias : ℚ := 0
  deriving DecidableEq, Repr

/-- the `Texture` constructor: allocates level 0 and, when mip maps are
requested, one zero-filled buffer per halving step; nothing is allocated
unless the pixel size and both dimensions are positive. -/
def Texture.create (pf : PixelFormat) (w h : Nat) (mip : Bool) : Texture :=
  if 0 < getPixelSize pf ∧ 0 < w ∧ 0 < h then
    { pixelFormat := pf, width := w, height := h, mipMaps := mip,
      levels := zeros ((w * h * getPixelSize pf) % 2^32) ::
        (if mip then
          (mipDims w h).map (fun d => zeros ((d.1 * d.2 * getPixelSize pf) % 2^32))
        else []) }
  else
    { pixelFormat := pf, width := w, height := h, mipMaps := mip, levels := [] }

/-- `Texture::resize`: width and height are overwritten first, then the
(unreachable) format check, then the level list is cleared and rebuilt;
unlike the constructor, level 0 is pushed even when a dimension is 0. -/
def Texture.resize (t : Texture) (newW newH : Nat) : Texture × Option TexError :=
  let t1 := { t with width := newW, height := newH }
  if getPixelSize t1.pixelFormat = 0 then (t1, some .invalidFormat)
  else
    ({ t1 with levels := zeros ((newW * newH * getPixelSize t1.pixelFormat) % 2^32) ::
        (if t1.mipMaps then
          (mipDims newW newH).map
            (fun d => zeros ((d.1 * d.2 * getPixelSize t1.pixelFormat) % 2^32))
        else []) }, none)

/-- `Texture::setData`: format check (unreachable), then the buffer length
is compared against the level-0 size `width * height * pixelSize`
(computed in `uint32`) whatever level is targeted, then the level list is
grown with empty placeholders (`levels.resize(level + 1)`) when needed and
the slot is overwritten. -/
def Texture.setData (t : Texture) (buffer : List Nat) (level : Nat) :
    Texture × Option TexError :=
  if getPixelSize t.pixelFormat = 0 then (t, some .invalidFormat)
  else if buffer.length ≠ (t.width * t.height * getPixelSize t.pixelFormat) % 2^32 then
    (t, some .invalidBufferSize)
  else
    let levels1 := if t.levels.length ≤ level
      then t.levels ++ List.replicate (level + 1 - t.levels.length) []
      else t.levels
    ({ t with levels := levels1.set level buffer }, none)

/-- `Texture::getPixel`: decode one pixel of the given level; indices are
`uint32` products and an out-of-range read is undefined behaviour in the
source, resolved here by `List.getD _ 0`. -/
def Texture.getPixel (ops : RealOps) (t : Texture) (x y level : Nat) : Color :=
  let buffer := t.levels.getD level []
  match t.pixelFormat with
  | .r8 =>
      let r := buffer.getD (((y * t.width + x) * 1) % 2^32) 0
      Color.ofBytes r r r 255
  | .a8 =>
      let a := buffer.getD (((y * t.width + x) * 1) % 2^32) 0
      Color.ofBytes 0 0 0 a
  | .rgba8 =>
      let i := ((y * t.width + x) * 4) % 2^32
      Color.ofBytes (buffer.getD i 0) (buffer.getD (i + 1) 0)
        (buffer.getD (i + 2) 0) (buffer.getD (i + 3) 0)
  | .float32 =>
      let i := ((y * t.width + x) % 2^32) * 4
      let f := ops.float32FromBytes (buffer.getD i 0) (buffer.getD (i + 1) 0)
        (buffer.getD (i + 2) 0) (buffer.getD (i + 3) 0)
      { r := f, g := f, b := f, a := 1 }

/-- the per-axis texel-coordinate computation in `Texture::sample`.  `d` is
the level-0 dimension of the axis; `d - 1` is computed in `uint32`.  The
mirror case keeps the source's parenthesisation exactly:
`1.0F - 2.0F * std::fabs(std::fmod(c / 2.0F, 1.0F) - 0.5F) * (d - 1)`,
i.e. the `(d - 1)` factor multiplies only the absolute-value term. -/
def addressCoord (mode : AddressMode) (c : ℚ) (d : Nat) : ℚ :=
  let dm1 : Nat := (d + (2^32 - 1)) % 2^32
  match mode with
  | .clamp => clampQ c 0 1 * (dm1 : ℚ)
  | .wrap => ratFmod c 1 * (dm1 : ℚ)
  | .mirror => 1 - 2 * |ratFmod (c / 2) 1 - 1/2| * (dm1 : ℚ)

/-- `Texture::sample`: early-out on a null sampler or an empty level list,
per-axis address-mode arithmetic, then either nearest (round + fetch) or
the four-corner bilinear blend, always at level 0. -/
def Texture.sample (ops : RealOps) (t : Texture) (sampler : Option Sampler)
    (coord : ℚ × ℚ) : Color :=
  match sampler with
  | none => {}
  | some s =>
    if t.levels = [] then {}
    else
      let u := addressCoord s.addressModeX coord.1 t.width
      let v := addressCoord s.addressModeY coord.2 t.height
      match s.filter with
      | .point =>
          t.getPixel ops (intToU32 (roundQ u)) (intToU32 (roundQ v)) 0
      | .bilinear =>
          let wm1 : Nat := (t.width + (2^32 - 1)) % 2^32
          let hm1 : Nat := (t.height + (2^32 - 1)) % 2^32
          let tx0 := clampN (toU32 (u - 1/2)) 0 wm1
          let tx1 := clampN ((toU32 (u - 1/2) + 1) % 2^32) 0 wm1
          let ty0 := clampN (toU32 (v - 1/2)) 0 hm1
          let ty1 := clampN ((toU32 (v - 1/2) + 1) % 2^32) 0 hm1
          let c0 := t.getPixel ops tx0 ty0 0
          let c1 := t.getPixel ops tx1 ty0 0
          let c2 := t.getPixel ops tx0 ty1 0
          let c3 := t.getPixel ops tx1 ty1 0
          let x0 : ℚ := u - ((tx0 : ℚ) + 1/2)
          let y0 : ℚ := v - ((ty0 : ℚ) + 1/2)
          let x1 : ℚ := ((tx0 : ℚ) + 3/2) - u
          let y1 : ℚ := ((ty0 : ℚ) + 3/2) - v
          { r := c0.r * x1 * y1 + c1.r * x0 * y1 + c2.r * x1 * y0 + c3.r * x0 * y0,
            g := c0.g * x1 * y1 + c1.g * x0 * y1 + c2.g * x1 * y0 + c3.g * x0 * y0,
            b := c0.b * x1 * y1 + c1.b * x0 * y1 + c2.b * x1 * y0 + c3.b * x0 * y0,
            a := c0.a * x1 * y1 + c1.a * x0 * y1 + c2.a * x1 * y0 + c3.a * x0 * y0 }

/-- decode of one source byte in the gamma-correct kernels:
`std::pow(byte / 255.0F, GAMMA)`. -/
def gammaDecodeByte (ops : RealOps) (v : Nat) : ℚ := ops.powGamma ((v : ℚ) / 255)

/-- re-encode of an averaged linear value:
`static_cast<std::uint8_t>(std::round(std::pow(q, 1.0F / GAMMA) * 255.0F))`. -/
def gammaEncodeByte (ops : RealOps) (q : ℚ) : Nat := intToU8 (roundQ (ops.powInvGamma q * 255))

/-- one RGBA source sample, four consecutive bytes. -/
structure Px where
  r : Nat
  g : Nat
  b : Nat
  a : Nat
  deriving DecidableEq, Repr

/-- the four bytes of the RGBA sample starting at byte `base` of `src`. -/
def sampleAt (src : List Nat) (base : Nat) : Px :=
  ⟨src.getD base 0, src.getD (base + 1) 0, src.getD (base + 2) 0, src.getD (base + 3) 0⟩

/-- the interior (4-sample) loop body of `Texture::imageRGBA8Downsample2x2`:
each sample's colour is decoded and accumulated only when its alpha byte is
positive (also bumping the `pixels` weight count), every alpha byte is
accumulated, and the destination is either the re-encoded averages with
`a *= 0.25F` truncated to a byte, or all-zero when no sample contributed.
`p0 p1 p2 p3` are `pixel[0..3]`, `pixel[4..7]`, `pixel[pitch..pitch+3]`,
`pixel[pitch+4..pitch+7]`. -/
def rgba8DownsamplePixel4 (ops : RealOps) (p0 p1 p2 p3 : Px) : List Nat :=
  let acc0 : ℚ × ℚ × ℚ × ℚ :=
    if 0 < p0.a then
      (gammaDecodeByte ops p0.r, gammaDecodeByte ops p0.g, gammaDecodeByte ops p0.b, 1)
    else (0, 0, 0, 0)
  let acc1 : ℚ × ℚ × ℚ × ℚ :=
    if 0 < p1.a then
      (acc0.1 + gammaDecodeByte ops p1.r, acc0.2.1 + gammaDecodeByte ops p1.g,
       acc0.2.2.1 + gammaDecodeByte ops p1.b, acc0.2.2.2 + 1)
    else acc0
  let acc2 : ℚ × ℚ × ℚ × ℚ :=
    if 0 < p2.a then
      (acc1.1 + gammaDecodeByte ops p2.r, acc1.2.1 + gammaDecodeByte ops p2.g,
       acc1.2.2.1 + gammaDecodeByte ops p2.b, acc1.2.2.2 + 1)
    else acc1
  let acc3 : ℚ × ℚ × ℚ × ℚ :=
    if 0 < p3.a then
      (acc2.1 + gammaDecodeByte ops p3.r, acc2.2.1 + gammaDecodeByte ops p3.g,
       acc2.2.2.1 + gammaDecodeByte ops p3.b, acc2.2.2.2 + 1)
    else acc2
  let a : ℚ := (p0.a : ℚ) + (p1.a : ℚ) + (p2.a : ℚ) + (p3.a : ℚ)
  if 0 < acc3.2.2.2 then
    [gammaEncodeByte ops (acc3.1 / acc3.2.2.2),
     gammaEncodeByte ops (acc3.2.1 / acc3.2.2.2),
     gammaEncodeByte ops (acc3.2.2.1 / acc3.2.2.2),
     (ratTrunc (a * (1/4))).toNat % 256]
  else [0, 0, 0, 0]

/-- the 2-sample loop body shared by the degenerate single-column and
single-row branches of `Texture::imageRGBA8Downsample2x2` (identical code
up to which two samples are read), with `a *= 0.5F`. -/
def rgba8DownsamplePixel2 (ops : RealOps) (p0 p1 : Px) : List Nat :=
  let acc0 : ℚ × ℚ × ℚ × ℚ :=
    if 0 < p0.a then
      (gammaDecodeByte ops p0.r, gammaDecodeByte ops p0.g, gammaDecodeByte ops p0.b, 1)
    else (0, 0, 0, 0)
  let acc1 : ℚ × ℚ × ℚ × ℚ :=
    if 0 < p1.a then
      (acc0.1 + gammaDecodeByte ops p1.r, acc0.2.1 + gammaDecodeByte ops p1.g,
       acc0.2.2.1 + gammaDecodeByte ops p1.b, acc0.2.2.2 + 1)
    else acc0
  let a : ℚ := (p0.a : ℚ) + (p1.a : ℚ)
  if 0 < acc1.2.2.2 then
    [gammaEncodeByte ops (acc1.1 / acc1.2.2.2),
     gammaEncodeByte ops (acc1.2.1 / acc1.2.2.2),
     gammaEncodeByte ops (acc1.2.2.1 / acc1.2.2.2),
     (ratTrunc (a * (1/2))).toNat % 256]
  else [0, 0, 0, 0]

/-- `Texture::imageRGBA8Downsample2x2`: the destination buffer, written
pixel by pixel; the source pointer advances `pitch * 2` bytes per
destination row and 8 bytes per destination column, the second row of a
2x2 block lives at offset `pitch`. -/
def imageRGBA8Downsample2x2 (ops : RealOps) (width height pitch : Nat)
    (src : List Nat) : List Nat :=
  let dstWidth := width / 2
  let dstHeight := height / 2
  if 0 < dstWidth ∧ 0 < dstHeight then
    (List.range dstHeight).flatMap fun y =>
      (List.range dstWidth).flatMap fun x =>
        let base := y * (pitch * 2) + x * 8
        rgba8DownsamplePixel4 ops (sampleAt src base) (sampleAt src (base + 4))
          (sampleAt src (base + pitch)) (sampleAt src (base + pitch + 4))
  else if 0 < dstHeight then
    (List.range dstHeight).flatMap fun y =>
      let base := y * (pitch * 2)
      rgba8DownsamplePixel2 ops (sampleAt src base) (sampleAt src (base + pitch))
  else if 0 < dstWidth then
    (List.range dstWidth).flatMap fun x =>
      let base := x * 8
      rgba8DownsamplePixel2 ops (sampleAt src base) (sampleAt src (base + 4))
  else []

/-- the 4-sample loop body of `Texture::imageR8Downsample2x2`:
gamma-correct average of the four bytes. -/
def r8DownsamplePixel4 (ops : RealOps) (v0 v1 v2 v3 : Nat) : List Nat :=
  let r := gammaDecodeByte ops v0 + gammaDecodeByte ops v1 +
    gammaDecodeByte ops v2 + gammaDecodeByte ops v3
  [gammaEncodeByte ops (r / 4)]

/-- the 2-sample loop body of `Texture::imageR8Downsample2x2`. -/
def r8DownsamplePixel2 (ops : RealOps) (v0 v1 : Nat) : List Nat :=
  let r := gammaDecodeByte ops v0 + gammaDecodeByte ops v1
  [gammaEncodeByte ops (r / 2)]

/-- `Texture::imageR8Downsample2x2`: one byte per pixel, the source pointer
advances `pitch * 2` per row and 2 per column. -/
def imageR8Downsample2x2 (ops : RealOps) (width height pitch : Nat)
    (src : List Nat) : List Nat :=
  let dstWidth := width / 2
  let dstHeight := height / 2
  if 0 < dstWidth ∧ 0 < dstHeight then
    (List.range dstHeight).flatMap fun y =>
      (List.range dstWidth).flatMap fun x =>
        let base := y * (pitch * 2) + x * 2
        r8DownsamplePixel4 ops (src.getD base 0) (src.getD (base + 1) 0)
          (src.getD (base + pitch) 0) (src.getD (base + pitch + 1) 0)
  else if 0 < dstHeight then
    (List.range dstHeight).flatMap fun y =>
      let base := y * (pitch * 2)
      r8DownsamplePixel2 ops (src.getD base 0) (src.getD (base + pitch) 0)
  else if 0 < dstWidth then
    (List.range dstWidth).flatMap fun x =>
      let base := x * 2
      r8DownsamplePixel2 ops (src.getD base 0) (src.getD (base + 1) 0)
  else []

/-- the 4-sample loop body of `Texture::imageA8Downsample2x2`: plain
(non-gamma) arithmetic mean, `a /= 4.0F`, truncated to a byte. -/
def a8DownsamplePixel4 (v0 v1 v2 v3 : Nat) : List Nat :=
  let a : ℚ := (v0 : ℚ) + (v1 : ℚ) + (v2 : ℚ) + (v3 : ℚ)
  [(ratTrunc (a / 4)).toNat % 256]

/-- the 2-sample loop body of `Texture::imageA8Downsample2x2`. -/
def a8DownsamplePixel2 (v0 v1 : Nat) : List Nat :=
  let a : ℚ := (v0 : ℚ) + (v1 : ℚ)
  [(ratTrunc (a / 2)).toNat % 256]

/-- `Texture::imageA8Downsample2x2`. -/
def imageA8Downsample2x2 (width height pitch : Nat) (src : List Nat) : List Nat :=
  let dstWidth := width / 2
  let dstHeight := height / 2
  if 0 < dstWidth ∧ 0 < dstHeight then
    (List.range dstHeight).flatMap fun y =>
      (List.range dstWidth).flatMap fun x =>
        let base := y * (pitch * 2) + x * 2
        a8DownsamplePixel4 (src.getD base 0) (src.getD (base + 1) 0)
          (src.getD (base + pitch) 0) (src.getD (base + pitch + 1) 0)
  else if 0 < dstHeight then
    (List.range dstHeight).flatMap fun y =>
      let base := y * (pitch * 2)
      a8DownsamplePixel2 (src.getD base 0) (src.getD (base + pitch) 0)
  else if 0 < dstWidth then
    (List.range dstWidth).flatMap fun x =>
      let base := x * 2
      a8DownsamplePixel2 (src.getD base 0) (src.getD (base + 1) 0)
  else []

/-- writing the kernel's output through the `dst` pointer overwrites a
prefix of the stored level buffer, keeping any trailing bytes. -/
def writeBytes (old new : List Nat) : List Nat := new ++ old.drop new.length

/-- the `switch (pixelFormat)` of `Texture::generateMipMaps`: the three
implemented kernels (the `pitch` argument is `previousWidth` times the
pixel stride, a `uint32` product); the `default:` case — reached exactly
for float32 — yields `none`, the thrown `InvalidFormat`. -/
def downsampleDispatch (ops : RealOps) (pf : PixelFormat) (prevW prevH : Nat)
    (src : List Nat) : Option (List Nat) :=
  match pf with
  | .rgba8 => some (imageRGBA8Downsample2x2 ops prevW prevH ((prevW * 4) % 2^32) src)
  | .r8 => some (imageR8Downsample2x2 ops prevW prevH ((prevW * 1) % 2^32) src)
  | .a8 => some (imageA8Downsample2x2 prevW prevH ((prevW * 1) % 2^32) src)
  | .float32 => none

/-- the conditional `levels.push_back` of the `generateMipMaps` loop: one
zero-filled buffer of the next level's size is appended when `level` is
past the current count. -/
def pushLevel (ps nw nh : Nat) (levels : List (List Nat)) (level : Nat) : List (List Nat) :=
  if levels.length ≤ level then levels ++ [zeros ((nw * nh * ps) % 2^32)] else levels

/-- the `while (newWidth > 1 || newHeight > 1)` loop of
`Texture::generateMipMaps`: halve (floored at 1), push one zero-filled
buffer when `level` is past the current count, then run the format switch
— the `default:` case (float32) throws after that possible push, leaving
the list as mutated so far. -/
def genMipMapsLoop (ops : RealOps) (pf : PixelFormat) (ps : Nat) (prevW prevH : Nat)
    (levels : List (List Nat)) (level : Nat) : List (List Nat) × Option TexError :=
  if 1 < prevW ∨ 1 < prevH then
    match downsampleDispatch ops pf prevW prevH
        ((pushLevel ps (max 1 (prevW / 2)) (max 1 (prevH / 2)) levels level).getD (level - 1) []) with
    | some dst =>
        genMipMapsLoop ops pf ps (max 1 (prevW / 2)) (max 1 (prevH / 2))
          ((pushLevel ps (max 1 (prevW / 2)) (max 1 (prevH / 2)) levels level).set level
            (writeBytes
              ((pushLevel ps (max 1 (prevW / 2)) (max 1 (prevH / 2)) levels level).getD level [])
              dst))
          (level + 1)
    | none =>
        (pushLevel ps (max 1 (prevW / 2)) (max 1 (prevH / 2)) levels level, some .invalidFormat)
  else (levels, none)
termination_by max prevW prevH
decreasing_by
  rcases ‹1 < prevW ∨ 1 < prevH› with hw | hh <;> omega

/-- `Texture::generateMipMaps`: format check (unreachable), base-level
check, then the halving loop starting at level 1 with the level-0
dimensions. -/
def Texture.generateMipMaps (ops : RealOps) (t : Texture) : Texture × Option TexError :=
  if getPixelSize t.pixelFormat = 0 then (t, some .invalidFormat)
  else if t.levels = [] then (t, some .baseImageNotProvided)
  else
    ({ t with levels := (genMipMapsLoop ops t.pixelFormat (getPixelSize t.pixelFormat)
        t.width t.height t.levels 1).1 },
     (genMipMapsLoop ops t.pixelFormat (getPixelSize t.pixelFormat)
        t.width t.height t.levels 1).2)

/-! ### Spec-side reference for the RGBA8 kernel (claim C1) -/

/-- Reference destination pixel written from the spec's words: colour
channels are gamma-decoded, averaged **only over samples whose alpha byte
is nonzero** (the weight count is the number of such samples), and
re-encoded; if no sample contributed the pixel is all-zero; alpha is the
plain arithmetic mean of all source alpha bytes, truncated to a byte. -/
def rgba8SpecPixel (ops : RealOps) (samples : List Px) : List Nat :=
  let contributing := samples.filter fun p => 0 < p.a
  if contributing.length = 0 then [0, 0, 0, 0]
  else
    [gammaEncodeByte ops
        ((contributing.map fun p => gammaDecodeByte ops p.r).sum / (contributing.length : ℚ)),
     gammaEncodeByte ops
        ((contributing.map fun p => gammaDecodeByte ops p.g).sum / (contributing.length : ℚ)),
     gammaEncodeByte ops
        ((contributing.map fun p => gammaDecodeByte ops p.b).sum / (contributing.length : ℚ)),
     (ratTrunc ((samples.map fun p => (p.a : ℚ)).sum / (samples.length : ℚ))).toNat % 256]

/-- Reference destination buffer written from the spec's words: every
destination pixel of the three branch shapes is the `rgba8SpecPixel`
average of its 4 (interior) or 2 (degenerate axis) source samples. -/
def rgba8SpecDownsample (ops : RealOps) (width height pitch : Nat)
    (src : List Nat) : List Nat :=
  let dstWidth := width / 2
  let dstHeight := height / 2
  if 0 < dstWidth ∧ 0 < dstHeight then
    (List.range dstHeight).flatMap fun y =>
      (List.range dstWidth).flatMap fun x =>
        let base := y * (pitch * 2) + x * 8
        rgba8SpecPixel ops [sampleAt src base, sampleAt src (base + 4),
          sampleAt src (base + pitch), sampleAt src (base + pitch + 4)]
  else if 0 < dstHeight then
    (List.range dstHeight).flatMap fun y =>
      let base := y * (pitch * 2)
      rgba8SpecPixel ops [sampleAt src base, sampleAt src (base + pitch)]
  else if 0 < dstWidth then
    (List.range dstWidth).flatMap fun x =>
      let base := x * 8
      rgba8SpecPixel ops [sampleAt src base, sampleAt src (base + 4)]
  else []

/-- the interior loop body agrees with the spec-side average of its four
samples, for every interpretation of the gamma power functions. -/
lemma rgba8DownsamplePixel4_eq_spec (ops : RealOps) (p0 p1 p2 p3 : Px) :
    rgba8DownsamplePixel4 ops p0 p1 p2 p3 = rgba8SpecPixel ops [p0, p1, p2, p3] := by
  by_cases h0 : 0 < p0.a <;> by_cases h1 : 0 < p1.a <;>
    by_cases h2 : 0 < p2.a <;> by_cases h3 : 0 < p3.a <;>
    simp [rgba8DownsamplePixel4, rgba8SpecPixel, h0, h1, h2, h3] <;>
    norm_num <;> ring_nf <;> simp

/-- the degenerate-axis loop body agrees with the spec-side average of its
two samples. -/
lemma rgba8DownsamplePixel2_eq_spec (ops : RealOps) (p0 p1 : Px) :
    rgba8DownsamplePixel2 ops p0 p1 = rgba8SpecPixel ops [p0, p1] := by
  by_cases h0 : 0 < p0.a <;> by_cases h1 : 0 < p1.a <;>
    simp [rgba8DownsamplePixel2, rgba8SpecPixel, h0, h1] <;>
    norm_num <;> ring_nf


/-- the halving chain length is the base-2 logarithm of the larger
dimension, for positive dimensions. -/
lemma mipDims_length : ∀ (n w h : Nat), max w h ≤ n → 1 ≤ w → 1 ≤ h →
    (mipDims w h).length = Nat.log2 (max w h) := by
  intro n
  induction n with
  | zero => intro w h hn hw hh; omega
  | succ n ih =>
    intro w h hn hw hh
    rw [mipDims]
    by_cases hc : 1 < w ∨ 1 < h
    · rw [if_pos hc]
      have hrec : max (max 1 (w / 2)) (max 1 (h / 2)) = max w h / 2 := by omega
      simp only [List.length_cons]
      rw [ih (max 1 (w / 2)) (max 1 (h / 2)) (by omega) (by omega) (by omega), hrec]
      conv_rhs => rw [Nat.log2]
      rw [if_pos (by omega)]
    · rw [if_neg hc]
      have h1 : max w h = 1 := by omega
      rw [h1, List.length_nil, Nat.log2]
      norm_num

/-- a non-float32 dispatch always produces a kernel output. -/
lemma downsampleDispatch_ne_float32 (ops : RealOps) (pf : PixelFormat)
    (prevW prevH : Nat) (src : List Nat) (hpf : pf ≠ PixelFormat.float32) :
    ∃ dst, downsampleDispatch ops pf prevW prevH src = some dst := by
  cases pf <;> simp [downsampleDispatch] at hpf ⊢

/-- the pushed list's length. -/
lemma pushLevel_length (ps nw nh : Nat) (levels : List (List Nat)) (level : Nat) :
    (pushLevel ps nw nh levels level).length
      = if levels.length ≤ level then levels.length + 1 else levels.length := by
  unfold pushLevel; split <;> simp

/-- loop invariant of `genMipMapsLoop` for the implemented formats: it
never fails, and the final level count is the old count or the entry level
plus the number of remaining halving steps, whichever is larger. -/
lemma genMipMapsLoop_spec (ops : RealOps) (pf : PixelFormat) (ps : Nat)
    (hpf : pf ≠ PixelFormat.float32) :
    ∀ (n w h : Nat), max w h ≤ n → ∀ (levels : List (List Nat)) (level : Nat),
      level ≤ levels.length →
      (genMipMapsLoop ops pf ps w h levels level).2 = none ∧
      (genMipMapsLoop ops pf ps w h levels level).1.length
        = max levels.length (level + (mipDims w h).length) := by
  intro n
  induction n with
  | zero =>
    intro w h hn levels level hlev
    rw [genMipMapsLoop, mipDims]
    have hc : ¬(1 < w ∨ 1 < h) := by omega
    rw [if_neg hc, if_neg hc]
    exact ⟨rfl, by simp; omega⟩
  | succ n ih =>
    intro w h hn levels level hlev
    rw [genMipMapsLoop, mipDims]
    by_cases hc : 1 < w ∨ 1 < h
    · rw [if_pos hc, if_pos hc]
      obtain ⟨dst, hdst⟩ := downsampleDispatch_ne_float32 ops pf w h
        ((pushLevel ps (max 1 (w / 2)) (max 1 (h / 2)) levels level).getD (level - 1) []) hpf
      rw [hdst]
      have hlen1 := pushLevel_length ps (max 1 (w / 2)) (max 1 (h / 2)) levels level
      have hstep := ih (max 1 (w / 2)) (max 1 (h / 2)) (by omega)
        ((pushLevel ps (max 1 (w / 2)) (max 1 (h / 2)) levels level).set level
          (writeBytes
            ((pushLevel ps (max 1 (w / 2)) (max 1 (h / 2)) levels level).getD level [])
            dst))
        (level + 1)
        (by rw [List.length_set, hlen1]; split <;> omega)
      refine ⟨hstep.1, ?_⟩
      rw [hstep.2, List.length_set, hlen1, List.length_cons]
      split <;> omega
    · rw [if_neg hc, if_neg hc]
      exact ⟨rfl, by simp; omega⟩

/-! ### Claim theorems -/

/-- C1: the RGBA8 2x2 downsample kernel invoked by `generateMipMaps`
produces, for every destination pixel of every branch shape, exactly the
spec-side average: a source sample with alpha byte 0 is excluded from the
colour average and from its weight count; if none of the 2 or 4 samples
has nonzero alpha the destination pixel is exactly (0,0,0,0); and the
destination alpha byte is the (truncated) arithmetic mean of all 2 or 4
source alpha bytes, with no gamma correction.  Universally quantified over
the interpretation of the two `std::pow` gamma operations. -/
theorem rgba8_downsample_matches_spec (ops : RealOps) (width height pitch : Nat)
    (src : List Nat) :
    imageRGBA8Downsample2x2 ops width height pitch src
      = rgba8SpecDownsample ops width height pitch src := by
  unfold imageRGBA8Downsample2x2 rgba8SpecDownsample
  simp only [rgba8DownsamplePixel4_eq_spec, rgba8DownsamplePixel2_eq_spec]

/-- C3 (code divergence witness): the claim (and the spec) state the mirror
texel coordinate as `(1 - 2*|fract(c/2) - 0.5|) * (d - 1)`, a triangle wave
staying in `[0, d-1]`.  The source line
`1.0F - 2.0F * std::fabs(std::fmod(coord.v[0] / 2.0F, 1.0F) - 0.5F) * (width - 1)`
associates the `(width - 1)` factor with the absolute-value term only, so at
`c = 0`, `d = 4` the code computes `1 - 2*0.5*3 = -2` while the claimed
formula gives `(1 - 2*0.5) * 3 = 0`: the code is a missing-parentheses slip,
not a ping-pong reflection. -/
theorem mirror_addressing_formula_bug :
    addressCoord AddressMode.mirror 0 4 = -2 ∧
    (1 - 2 * |ratFmod ((0 : ℚ) / 2) 1 - 1/2|) * ((4 : ℚ) - 1) = 0 := by
  constructor
  · norm_num [addressCoord, ratFmod, ratTrunc, abs_of_nonneg]
  · norm_num [ratFmod, ratTrunc, abs_of_nonneg]

/-- C9 (code divergence witness): for a point-filter fetch the claim needs
the rounded texel coordinate of every axis to lie in `[0, width-1]` for
`uv ∈ [0,1]`; with mirror addressing on a width-4 axis at coordinate 0 the
source's coordinate evaluates to `-2`, whose rounding is `-2`, outside
`[0, 3]` — the subsequent `uint32` cast and `getPixel` fetch are out of
bounds (undefined behaviour). -/
theorem point_mirror_index_out_of_range :
    roundQ (addressCoord AddressMode.mirror 0 4) = -2 ∧
    roundQ (addressCoord AddressMode.mirror 0 4) < 0 := by
  have h : roundQ (addressCoord AddressMode.mirror 0 4) = -2 := by
    norm_num [addressCoord, ratFmod, ratTrunc, roundQ, abs_of_nonneg]
  exact ⟨h, by rw [h]; norm_num⟩

/-- C10: a texture constructed with a zero dimension has no levels, and
`sample` on a texture with an empty level list returns the
default-constructed all-zero color for every sampler (null or not) and
every coordinate, without failing. -/
theorem sample_empty_texture (ops : RealOps) (pf : PixelFormat) (w h : Nat)
    (mip : Bool) (s : Option Sampler) (c : ℚ × ℚ) (hzero : w = 0 ∨ h = 0) :
    (Texture.create pf w h mip).levels = [] ∧
    Texture.sample ops (Texture.create pf w h mip) s c = ({} : Color) := by
  have h1 : (Texture.create pf w h mip).levels = [] := by
    rcases hzero with rfl | rfl <;> simp [Texture.create]
  exact ⟨h1, by cases s <;> simp [Texture.sample, h1]⟩

/-- witness for `sample_empty_texture` at a concrete zero-width texture and
a concrete non-null sampler. -/
theorem sample_empty_texture_witness :
    (Texture.create PixelFormat.rgba8 0 5 false).levels = [] ∧
    Texture.sample opsZero (Texture.create PixelFormat.rgba8 0 5 false)
      (some ⟨AddressMode.clamp, AddressMode.clamp, Filter.point⟩) (1/3, 1/2) = ({} : Color) :=
  sample_empty_texture opsZero PixelFormat.rgba8 0 5 false
    (some ⟨AddressMode.clamp, AddressMode.clamp, Filter.point⟩) (1/3, 1/2) (Or.inl rfl)

/-- C5: full characterisation of `setData`.  The pixel size of every format
is nonzero, so the `InvalidFormat` branch is unreachable; the call fails
with `InvalidBufferSize` exactly when the buffer length differs from
`width * height * pixelSize` computed from the level-0 dimensions (in
`uint32`), whatever level is targeted; otherwise the level list is padded
with empty placeholders up to the target index and only that slot is
overwritten. -/
theorem setData_characterization (t : Texture) (buffer : List Nat) (level : Nat) :
    getPixelSize t.pixelFormat ≠ 0 ∧
    t.setData buffer level =
      (if buffer.length = (t.width * t.height * getPixelSize t.pixelFormat) % 2^32 then
        ({ t with levels :=
            (t.levels ++ List.replicate (level + 1 - t.levels.length) []).set level buffer },
         none)
      else (t, some .invalidBufferSize)) ∧
    ((t.setData buffer level).2 = some .invalidBufferSize ↔
      buffer.length ≠ (t.width * t.height * getPixelSize t.pixelFormat) % 2^32) := by
  have hps : getPixelSize t.pixelFormat ≠ 0 := by
    cases t.pixelFormat <;> simp [getPixelSize]
  have hkey : t.setData buffer level =
      (if buffer.length = (t.width * t.height * getPixelSize t.pixelFormat) % 2^32 then
        ({ t with levels :=
            (t.levels ++ List.replicate (level + 1 - t.levels.length) []).set level buffer },
         none)
      else (t, some .invalidBufferSize)) := by
    by_cases h : buffer.length = (t.width * t.height * getPixelSize t.pixelFormat) % 2^32
    · rw [if_pos h]
      by_cases hl : t.levels.length ≤ level
      · simp [Texture.setData, hps, h, hl]
      · have h0 : level + 1 - t.levels.length = 0 := by omega
        simp [Texture.setData, hps, h, hl, h0]
    · rw [if_neg h]
      simp [Texture.setData, hps, h]
      simpa using h
  refine ⟨hps, hkey, ?_⟩
  by_cases h : buffer.length = (t.width * t.height * getPixelSize t.pixelFormat) % 2^32
  · rw [hkey, if_pos h]
    simp [h]
  · rw [hkey, if_neg h]
    exact ⟨fun _ => h, fun _ => rfl⟩

/-- C7 (amended): for positive new dimensions, `resize` rebuilds exactly
the construction-time level allocation for the same format and the
preserved mip flag — the level lists (hence their count and per-level byte
lengths) coincide — and it never fails. -/
theorem resize_matches_construction (t : Texture) (w h : Nat)
    (hw : 1 ≤ w) (hh : 1 ≤ h) :
    (t.resize w h).1.levels = (Texture.create t.pixelFormat w h t.mipMaps).levels ∧
    (t.resize w h).1.levels.map List.length
      = (Texture.create t.pixelFormat w h t.mipMaps).levels.map List.length ∧
    (t.resize w h).2 = none := by
  have hps : getPixelSize t.pixelFormat ≠ 0 := by
    cases t.pixelFormat <;> simp [getPixelSize]
  have hcond : 0 < getPixelSize t.pixelFormat ∧ 0 < w ∧ 0 < h :=
    ⟨Nat.pos_of_ne_zero hps, hw, hh⟩
  have h1 : (t.resize w h).1.levels = (Texture.create t.pixelFormat w h t.mipMaps).levels := by
    simp [Texture.resize, Texture.create, hps, hcond]
  exact ⟨h1, by rw [h1], by simp [Texture.resize, hps]⟩

/-- witness for `resize_matches_construction` at a concrete texture and
concrete positive dimensions. -/
theorem resize_matches_construction_witness :
    ((Texture.create PixelFormat.r8 2 2 true).resize 5 1).1.levels
      = (Texture.create PixelFormat.r8 5 1 true).levels ∧
    ((Texture.create PixelFormat.r8 2 2 true).resize 5 1).1.levels.map List.length
      = (Texture.create PixelFormat.r8 5 1 true).levels.map List.length ∧
    ((Texture.create PixelFormat.r8 2 2 true).resize 5 1).2 = none :=
  resize_matches_construction (Texture.create PixelFormat.r8 2 2 true) 5 1
    (by norm_num) (by norm_num)

/-- C7 (counterexample to the claim as stated): resizing a 1x1 RGBA8
texture to 0x0 leaves one level (a zero-length buffer) — not the empty
level list a fresh zero-dimension construction produces. -/
theorem resize_zero_dims_not_construction :
    ((Texture.create PixelFormat.rgba8 1 1 false).resize 0 0).1.levels = [[]] ∧
    (Texture.create PixelFormat.rgba8 0 0 false).levels = [] := by
  constructor <;> simp [Texture.create, Texture.resize, zeros, getPixelSize]

/-- C2: a texture constructed with `mipMaps = true` and positive
dimensions has exactly `1 + floor(log2(max(width, height)))` levels (the
halving chain `mipDims` has length `log2(max)`), for every pixel format
(all have nonzero pixel size); and for the non-float32 formats,
`generateMipMaps` on a texture with positive dimensions whose level list
is nonempty and has not been extended beyond that count succeeds and
leaves exactly `1 + floor(log2(max(width, height)))` levels. -/
theorem mip_pyramid_count (ops : RealOps) (pf : PixelFormat) (w h : Nat) (t : Texture)
    (hw : 1 ≤ w) (hh : 1 ≤ h)
    (hpf : t.pixelFormat ≠ PixelFormat.float32)
    (htw : 1 ≤ t.width) (hth : 1 ≤ t.height)
    (hlen1 : 1 ≤ t.levels.length)
    (hlen2 : t.levels.length ≤ 1 + Nat.log2 (max t.width t.height)) :
    (mipDims w h).length = Nat.log2 (max w h) ∧
    (Texture.create pf w h true).levels.length = 1 + Nat.log2 (max w h) ∧
    (t.generateMipMaps ops).2 = none ∧
    (t.generateMipMaps ops).1.levels.length = 1 + Nat.log2 (max t.width t.height) := by
  have hmd := mipDims_length (max w h) w h le_rfl hw hh
  have hmdt := mipDims_length (max t.width t.height) t.width t.height le_rfl htw hth
  have hps : 0 < getPixelSize pf := by cases pf <;> simp [getPixelSize]
  have hps0 : getPixelSize t.pixelFormat ≠ 0 := by
    cases t.pixelFormat <;> simp [getPixelSize]
  have hne : t.levels ≠ [] := by
    intro hx; rw [hx] at hlen1; simp at hlen1
  have hloop := genMipMapsLoop_spec ops t.pixelFormat (getPixelSize t.pixelFormat) hpf
    (max t.width t.height) t.width t.height le_rfl t.levels 1 hlen1
  refine ⟨hmd, ?_, ?_, ?_⟩
  · rw [Texture.create, if_pos ⟨hps, by omega, by omega⟩]
    simp [hmd]
    omega
  · rw [Texture.generateMipMaps, if_neg hps0, if_neg hne]
    exact hloop.1
  · rw [Texture.generateMipMaps, if_neg hps0, if_neg hne]
    have := hloop.2
    rw [hmdt] at this
    show (genMipMapsLoop ops t.pixelFormat (getPixelSize t.pixelFormat)
        t.width t.height t.levels 1).1.length = 1 + Nat.log2 (max t.width t.height)
    omega

/-- witness for `mip_pyramid_count`: an RGBA8 4x3 texture constructed with
mip maps has 3 = 1 + log2 4 levels, and generating its mip maps succeeds
keeping 3 levels. -/
theorem mip_pyramid_count_witness :
    (mipDims 4 3).length = Nat.log2 (max 4 3) ∧
    (Texture.create PixelFormat.rgba8 4 3 true).levels.length = 1 + Nat.log2 (max 4 3) ∧
    ((Texture.create PixelFormat.rgba8 4 3 true).generateMipMaps opsZero).2 = none ∧
    ((Texture.create PixelFormat.rgba8 4 3 true).generateMipMaps opsZero).1.levels.length
      = 1 + Nat.log2 (max (Texture.create PixelFormat.rgba8 4 3 true).width
          (Texture.create PixelFormat.rgba8 4 3 true).height) :=
  mip_pyramid_count opsZero PixelFormat.rgba8 4 3 (Texture.create PixelFormat.rgba8 4 3 true)
    (by norm_num) (by norm_num)
    (by simp [Texture.create, getPixelSize])
    (by simp [Texture.create, getPixelSize])
    (by simp [Texture.create, getPixelSize])
    (by simp [Texture.create, getPixelSize])
    (by simp [Texture.create, getPixelSize, mipDims, Nat.log2])

/-- C8 (amended): on a float32 texture with a nonempty level list,
`generateMipMaps` fails with `InvalidFormat` exactly when the halving loop
runs at all, i.e. when `width > 1` or `height > 1`; a 1x1 (or degenerate)
float32 texture succeeds trivially because the loop body is never entered. -/
theorem genMipMaps_float32_invalidFormat_iff (ops : RealOps) (t : Texture)
    (hpf : t.pixelFormat = PixelFormat.float32) (hne : t.levels ≠ []) :
    ((t.generateMipMaps ops).2 = some TexError.invalidFormat ↔
      1 < t.width ∨ 1 < t.height) := by
  have hps0 : getPixelSize t.pixelFormat ≠ 0 := by rw [hpf]; simp [getPixelSize]
  rw [Texture.generateMipMaps, if_neg hps0, if_neg hne, genMipMapsLoop]
  by_cases hc : 1 < t.width ∨ 1 < t.height
  · rw [if_pos hc, hpf]
    simp [downsampleDispatch, hc]
  · rw [if_neg hc]
    simp [hc]

/-- witness for `genMipMaps_float32_invalidFormat_iff` at a concrete 2x2
float32 texture holding base data. -/
theorem genMipMaps_float32_invalidFormat_iff_witness :
    ((Texture.generateMipMaps opsZero
        { pixelFormat := PixelFormat.float32, width := 2, height := 2, mipMaps := false,
          levels := [[0, 0, 0, 0, 0, 0, 0, 0, 0, 0, 0, 0, 0, 0, 0, 0]] }).2
      = some TexError.invalidFormat ↔ (1 < 2 ∨ 1 < 2)) :=
  genMipMaps_float32_invalidFormat_iff opsZero
    { pixelFormat := PixelFormat.float32, width := 2, height := 2, mipMaps := false,
      levels := [[0, 0, 0, 0, 0, 0, 0, 0, 0, 0, 0, 0, 0, 0, 0, 0]] }
    rfl (by simp)

/-- C8 (counterexample to the claim as stated): a 1x1 float32 texture with
base data runs `generateMipMaps` without any error — the claim's
"for every float32 texture whose base level holds data" fails here. -/
theorem genMipMaps_float32_1x1_succeeds :
    (Texture.generateMipMaps opsZero
        { pixelFormat := PixelFormat.float32, width := 1, height := 1, mipMaps := false,
          levels := [[0, 0, 0, 0]] }).2 = none := by
  rw [Texture.generateMipMaps, genMipMapsLoop]
  norm_num [getPixelSize]

/-- C6 (amended): `setData` and `resize` are atomic on the level list —
`setData` leaves it untouched whenever it fails and `resize` never fails;
`generateMipMaps`, when it fails, leaves the level list unchanged
**except** in the float32 case with `max(width, height) > 1` and a
single-entry level list, where exactly one zero-filled level-1 buffer was
pushed before the `InvalidFormat` throw. -/
theorem mutators_atomicity (ops : RealOps) (t : Texture) (buf : List Nat) (lvl w h : Nat) :
    ((t.setData buf lvl).2.isSome → (t.setData buf lvl).1.levels = t.levels) ∧
    (t.resize w h).2 = none ∧
    ((t.generateMipMaps ops).2.isSome →
      (t.generateMipMaps ops).1.levels = t.levels ∨
      (t.pixelFormat = PixelFormat.float32 ∧
        (t.generateMipMaps ops).1.levels
          = t.levels ++ [zeros ((max 1 (t.width / 2) * max 1 (t.height / 2)
              * getPixelSize t.pixelFormat) % 2^32)])) := by
  have hps0 : getPixelSize t.pixelFormat ≠ 0 := by
    cases t.pixelFormat <;> simp [getPixelSize]
  refine ⟨?_, ?_, ?_⟩
  · intro hs
    by_cases hb : buf.length = (t.width * t.height * getPixelSize t.pixelFormat) % 2^32
    · exfalso
      rw [Texture.setData, if_neg hps0, if_neg (not_not_intro hb)] at hs
      simp at hs
    · rw [Texture.setData, if_neg hps0, if_pos hb]
  · simp [Texture.resize, hps0]
  · intro hs
    by_cases hne : t.levels = []
    · left
      simp [Texture.generateMipMaps, hps0, hne]
    · by_cases hpf : t.pixelFormat = PixelFormat.float32
      · rw [Texture.generateMipMaps, if_neg hps0, if_neg hne, genMipMapsLoop] at hs ⊢
        by_cases hc : 1 < t.width ∨ 1 < t.height
        · rw [if_pos hc, hpf] at hs ⊢
          simp only [downsampleDispatch] at hs ⊢
          rw [pushLevel]
          by_cases hl : t.levels.length ≤ 1
          · right
            rw [if_pos hl]
            exact ⟨trivial, rfl⟩
          · left
            rw [if_neg hl]
        · rw [if_neg hc] at hs
          simp at hs
      · exfalso
        have hlev : 1 ≤ t.levels.length := by
          cases hx : t.levels
          · exact absurd hx hne
          · simp [hx]
        have hloop := genMipMapsLoop_spec ops t.pixelFormat (getPixelSize t.pixelFormat)
          hpf (max t.width t.height) t.width t.height le_rfl t.levels 1 hlev
        rw [Texture.generateMipMaps, if_neg hps0, if_neg hne] at hs
        have h2 : ({ t with levels := (genMipMapsLoop ops t.pixelFormat
            (getPixelSize t.pixelFormat) t.width t.height t.levels 1).1 },
            (genMipMapsLoop ops t.pixelFormat (getPixelSize t.pixelFormat)
              t.width t.height t.levels 1).2).2.isSome = false := by
          rw [hloop.1]; rfl
        rw [h2] at hs
        exact Bool.false_ne_true hs

/-- a concrete 2x1 float32 texture with one level, used to exercise the
failure paths of the mutating operations. -/
def floatTex21 : Texture :=
  ⟨PixelFormat.float32, 2, 1, false, [[0, 0, 0, 0, 0, 0, 0, 0]], 0, 2^32 - 1, 0⟩

/-- witness for `mutators_atomicity`, discharging each implication at
`floatTex21`: the failing `setData` leaves levels unchanged, `resize`
reports no error, and the failing `generateMipMaps` lands in the
push-then-throw disjunct. -/
theorem mutators_atomicity_witness :
    (floatTex21.setData [] 0).1.levels = floatTex21.levels ∧
    (floatTex21.resize 3 3).2 = none ∧
    ((floatTex21.generateMipMaps opsZero).1.levels = floatTex21.levels ∨
      (floatTex21.pixelFormat = PixelFormat.float32 ∧
        (floatTex21.generateMipMaps opsZero).1.levels
          = floatTex21.levels ++ [zeros ((max 1 (floatTex21.width / 2)
              * max 1 (floatTex21.height / 2) * getPixelSize floatTex21.pixelFormat) % 2^32)])) := by
  have H := mutators_atomicity opsZero floatTex21 [] 0 3 3
  refine ⟨H.1 ?_, H.2.1, H.2.2 ?_⟩
  · norm_num [Texture.setData, floatTex21, getPixelSize]
  · norm_num [Texture.generateMipMaps, floatTex21, getPixelSize, genMipMapsLoop,
      downsampleDispatch]

/-- C6 (counterexample to the claim as stated): on `floatTex21` (float32,
2x1, one level) `generateMipMaps` throws, yet the level list after the
call differs from the one before — a zero-filled level was appended
before the error. -/
theorem generateMipMaps_mutates_on_failure :
    (floatTex21.generateMipMaps opsZero).2.isSome = true ∧
    (floatTex21.generateMipMaps opsZero).1.levels ≠ floatTex21.levels := by
  constructor <;>
    norm_num [Texture.generateMipMaps, floatTex21, getPixelSize, genMipMapsLoop,
      downsampleDispatch, pushLevel, zeros]

/-- C4 (counterexample to the claim as stated): on a 2x1 R8 texture with
bytes `[0, 255]`, bilinear clamp/clamp sampling at the claimed texel
center `uv = ((1 + 0.5) / width, (0 + 0.5) / height) = (0.75, 0.5)` does
not return `getPixel(1, 0, 0)`: the texel-space coordinate is
`0.75 * (width - 1) = 0.75`, the weights are 3/4 and 1/4, and the result's
red channel is 1/4, not 1. -/
theorem bilinear_texel_center_not_pixel :
    Texture.sample opsZero
        ⟨PixelFormat.r8, 2, 1, false, [[0, 255]], 0, 2^32 - 1, 0⟩
        (some ⟨AddressMode.clamp, AddressMode.clamp, Filter.bilinear⟩)
        ((1 + 1/2) / 2, (0 + 1/2) / 1)
      ≠ Texture.getPixel opsZero
          ⟨PixelFormat.r8, 2, 1, false, [[0, 255]], 0, 2^32 - 1, 0⟩ 1 0 0 := by
  have hc : (⌈(-(1/2) : ℚ)⌉ : ℤ) = 0 := by norm_num
  norm_num [Texture.sample, Texture.getPixel, addressCoord, clampQ, toU32, clampN,
    ratTrunc, Color.ofBytes, Color.mk.injEq, abs_of_nonneg, hc]

/-- `uint32` conversion is the identity on small naturals. -/
lemma toU32_natCast (n : Nat) (hn : n < 2^32) : toU32 ((n : ℚ)) = n := by
  rw [toU32, ratTrunc, if_pos (by positivity), Int.floor_natCast]
  simp
  omega

/-- the `uint32` computation of `d - 1` is exact below the wrap. -/
lemma dm1_eq (d : Nat) (h1 : 1 ≤ d) (h2 : d < 2^32) :
    (d + (2^32 - 1)) % 2^32 = d - 1 := by omega

/-- the clamp-mode texel coordinate at `(x + 0.5) / (d - 1)` is exactly the
texel-space center `x + 0.5`, for `x + 2 ≤ d < 2^32`. -/
lemma addressCoord_clamp_center (x d : Nat) (hx : x + 2 ≤ d) (hd : d < 2^32) :
    addressCoord AddressMode.clamp (((x : ℚ) + 1/2) / ((d : ℚ) - 1)) d
      = (x : ℚ) + 1/2 := by
  have h2d : (2 : ℚ) ≤ (d : ℚ) := by exact_mod_cast (by omega : 2 ≤ d)
  have hxd : ((x : ℚ) + 2) ≤ (d : ℚ) := by exact_mod_cast hx
  have hpos : (0 : ℚ) < (d : ℚ) - 1 := by linarith
  have hc1 : (((x : ℚ) + 1/2) / ((d : ℚ) - 1)) ≤ 1 := by
    rw [div_le_one hpos]; linarith
  have hc0 : (0 : ℚ) ≤ (((x : ℚ) + 1/2) / ((d : ℚ) - 1)) := by positivity
  rw [addressCoord]
  simp only [dm1_eq d (by omega) hd]
  rw [clampQ, if_neg (by linarith), if_neg (by linarith),
    Nat.cast_sub (by omega : 1 ≤ d), Nat.cast_one,
    div_mul_cancel₀ _ (ne_of_gt hpos)]

/-- C4 (amended): bilinear clamp/clamp sampling collapses onto one texel
at the coordinates whose clamp-mode image is an exact texel center,
`uv = ((x + 0.5) / (width - 1), (y + 0.5) / (height - 1))` with
`x ≤ width - 2` and `y ≤ height - 2`: there `sample` returns exactly
`getPixel(x, y, 0)` (exact rational arithmetic; dimensions below the
`uint32` wrap). -/
theorem bilinear_center_collapse (ops : RealOps) (t : Texture) (x y : Nat)
    (hne : t.levels ≠ [])
    (hx : x + 2 ≤ t.width) (hy : y + 2 ≤ t.height)
    (hw : t.width < 2^32) (hh : t.height < 2^32) :
    t.sample ops (some ⟨AddressMode.clamp, AddressMode.clamp, Filter.bilinear⟩)
      (((x : ℚ) + 1/2) / ((t.width : ℚ) - 1), ((y : ℚ) + 1/2) / ((t.height : ℚ) - 1))
      = t.getPixel ops x y 0 := by
  have hu := addressCoord_clamp_center x t.width hx hw
  have hv := addressCoord_clamp_center y t.height hy hh
  simp only [Texture.sample, hne, if_neg, ite_false, hu, hv]
  rw [show ((x : ℚ) + 1/2 - 1/2) = (x : ℚ) by ring,
    show ((y : ℚ) + 1/2 - 1/2) = (y : ℚ) by ring,
    toU32_natCast x (by omega), toU32_natCast y (by omega),
    dm1_eq t.width (by omega) hw, dm1_eq t.height (by omega) hh,
    Nat.mod_eq_of_lt (show x + 1 < 2^32 by omega),
    Nat.mod_eq_of_lt (show y + 1 < 2^32 by omega)]
  rw [show clampN x 0 (t.width - 1) = x by rw [clampN]; simp; omega,
    show clampN (x + 1) 0 (t.width - 1) = x + 1 by rw [clampN]; simp; omega,
    show clampN y 0 (t.height - 1) = y by rw [clampN]; simp; omega,
    show clampN (y + 1) 0 (t.height - 1) = y + 1 by rw [clampN]; simp; omega]
  rcases hP : t.getPixel ops x y 0 with ⟨pr, pg, pb, pa⟩
  simp only [Color.mk.injEq]
  refine ⟨by ring, by ring, by ring, by ring⟩

/-- witness for `bilinear_center_collapse` on a concrete 4x4 R8 texture at
texel (1, 1): sampling at `uv = (1.5/3, 1.5/3)` returns `getPixel(1,1,0)`. -/
theorem bilinear_center_collapse_witness :
    Texture.sample opsZero
        ⟨PixelFormat.r8, 4, 4, false,
          [[0, 1, 2, 3, 4, 5, 6, 7, 8, 9, 10, 11, 12, 13, 14, 15]], 0, 2^32 - 1, 0⟩
        (some ⟨AddressMode.clamp, AddressMode.clamp, Filter.bilinear⟩)
        (((1 : ℚ) + 1/2) / ((4 : ℚ) - 1), ((1 : ℚ) + 1/2) / ((4 : ℚ) - 1))
      = Texture.getPixel opsZero
          ⟨PixelFormat.r8, 4, 4, false,
            [[0, 1, 2, 3, 4, 5, 6, 7, 8, 9, 10, 11, 12, 13, 14, 15]], 0, 2^32 - 1, 0⟩ 1 1 0 :=
  bilinear_center_collapse opsZero
    ⟨PixelFormat.r8, 4, 4, false,
      [[0, 1, 2, 3, 4, 5, 6, 7, 8, 9, 10, 11, 12, 13, 14, 15]], 0, 2^32 - 1, 0⟩ 1 1
    (by simp) (by norm_num) (by norm_num) (by norm_num) (by norm_num)

end SR
